import Mathlib

/-!
Shallow embedding of `src/static/app.js` (Activity Board Controller):
the fetch-and-render pass, the signup submit handler, the unregister
handler, the URL building via `encodeURIComponent`, and the timed
status-message dismissal.  Machine numbers are modelled as `Int`/`Nat`;
fallible steps (network or JSON parse) as `Option`/an outcome type.
-/

/-- One activity as delivered by `GET /activities`
(`{description, schedule, max_participants, participants}`). -/
structure Activity where
  description : String
  schedule : String
  max_participants : Int
  participants : List String
deriving Repr, DecidableEq

/-- The catalog: `Object.entries` of the response object, i.e. the
name-to-activity pairs in insertion (response) order. -/
abbrev Catalog : Type := List (String × Activity)

/-- Line 21: `const spotsLeft = details.max_participants - details.participants.length;`.
JS subtraction of integers is exact here, so the result is a plain `Int`
(negative when participants exceed capacity; the code never clamps). -/
def spotsLeft (details : Activity) : Int :=
  details.max_participants - (details.participants.length : Int)

/-- One rendered participant row (lines 27-32): the shown email span and
the delete button with its `data-activity` and `data-email` attribute
values as they exist in the DOM after the innerHTML round-trip, i.e. as
`getAttribute` later reads them back (lines 76-77). -/
structure Row where
  email : String
  btnActivity : String
  btnEmail : String
deriving Repr, DecidableEq

/-- The value `getAttribute` reads back after the template string is
assigned to `innerHTML` (line 51): the HTML tokenizer ends a double
quoted attribute value at the first double quote, so the written value
is truncated there.  Character-reference resolution is not modelled;
statements that need the round-trip to be exact therefore also exclude
ampersands, via `htmlInert`. -/
def domAttrValue (v : String) : String :=
  String.mk (v.data.takeWhile (fun c => c != Char.ofNat 34))

/-- Values whose innerHTML round-trip is the identity: free of the
characters the HTML tokenizer treats specially in a double quoted
attribute value or a text node (double quote, ampersand, angle
brackets). -/
def htmlInert (s : String) : Bool :=
  s.data.all (fun c =>
    !(c == Char.ofNat 34) && !(c == '&') && !(c == '<') && !(c == '>'))

/-- The participants block (lines 24-49): either the list of rows, or the
fixed no-participants placeholder text. -/
inductive PBlock where
  | rows (rs : List Row)
  | placeholder (text : String)
deriving Repr, DecidableEq

/-- Lines 24-49: build the participants block as it exists in the DOM.
The branch condition is `details.participants.length > 0`, the map
mirrors `.map(participant => ...)`; the interpolated attribute values go
through the innerHTML serialize/parse round-trip (`domAttrValue`), so a
double quote in a value truncates the stored attribute. -/
def mkPBlock (name : String) (details : Activity) : PBlock :=
  if 0 < details.participants.length then
    PBlock.rows (details.participants.map
      (fun p => ⟨p, domAttrValue name, domAttrValue p⟩))
  else
    PBlock.placeholder "No participants yet"

/-- The removal controls contained in a participants block, as
(data-activity, data-email) pairs; the placeholder holds none. -/
def removalControls : PBlock → List (String × String)
  | PBlock.rows rs => rs.map (fun r => (r.btnActivity, r.btnEmail))
  | PBlock.placeholder _ => []

/-- One activity card (lines 18-57): title, description, schedule line,
availability line text, and the participants block. -/
structure Card where
  title : String
  description : String
  schedule : String
  availabilityText : String
  pblock : PBlock
deriving Repr, DecidableEq

/-- Lines 51-57: the card built for one catalog entry.  The availability
line interpolates `spotsLeft` followed by " spots left". -/
def mkCard (name : String) (details : Activity) : Card :=
  { title := name
    description := details.description
    schedule := details.schedule
    availabilityText := toString (spotsLeft details) ++ " spots left"
    pblock := mkPBlock name details }

/-- All cards of one render pass, in catalog order (the `forEach` loop). -/
def renderCards (cat : Catalog) : List Card :=
  cat.map (fun p => mkCard p.1 p.2)

/-- The `#activities-list` region: either a list of appended cards, or a
raw innerHTML string (the initial loading text or the failure message). -/
inductive ListRegion where
  | cards (cs : List Card)
  | html (s : String)
deriving Repr, DecidableEq

/-- The two DOM regions owned by `fetchActivities`: the activity list and
the option values of the `#activity` select control. -/
structure DomState where
  listRegion : ListRegion
  selectOptions : List String
deriving Repr, DecidableEq

/-- Lines 8-71: one fetch-and-render pass.  `resp` is `some cat` when the
request and `response.json()` succeed (the code never checks
`response.ok` here), `none` when either throws.  On success the list is
cleared and rebuilt and one option per activity is appended to the select
(which is never cleared); on failure only the list innerHTML is replaced.
The returned `Nat` counts the GET requests this pass issues: always the
single initial one, the catch block issues no retry. -/
def fetchActivities (st : DomState) (resp : Option Catalog) : DomState × Nat :=
  match resp with
  | some cat =>
      ({ listRegion := ListRegion.cards (renderCards cat)
         selectOptions := st.selectOptions ++ cat.map (fun p => p.1) }, 1)
  | none =>
      ({ st with
         listRegion := ListRegion.html
           "<p>Failed to load activities. Please try again later.</p>" }, 1)

/-- The `#message` div: its textContent (`none` models assigning the JS
undefined value), its className, and whether the "hidden" class is set. -/
structure MsgDiv where
  text : Option String
  className : String
  hidden : Bool
deriving Repr, DecidableEq

/-- A parsed JSON response body; `message` and `detail` may each be
absent (`none` models a missing field, read as undefined in JS). -/
structure RespBody where
  message : Option String
  detail : Option String
deriving Repr, DecidableEq

/-- Outcome of a fetch plus `response.json()`: a response with its
`response.ok` flag and parsed body, or a thrown transport/parse error. -/
inductive FetchOutcome where
  | success (ok : Bool) (body : RespBody)
  | failure
deriving Repr, DecidableEq

/-- The side effects of one handler run: whether the HTTP request was
sent at all, whether `fetchActivities()` was called again, whether the
form was reset, and the delay of the scheduled hide timer, if any. -/
structure Effects where
  requestSent : Bool
  refetch : Bool
  formReset : Bool
  timer : Option Nat
deriving Repr, DecidableEq

/-- The JS `||` idiom `result.detail || fallback` on a string field of a
parsed body: the fallback is taken when the field is falsy, i.e. absent
(undefined, modelled `none`) or the empty string. -/
def jsOrString (v : Option String) (fallback : String) : String :=
  match v with
  | none => fallback
  | some s => if s = "" then fallback else s

/-- Lines 134-173: the signup submit handler, given the prior message div
and the request outcome.  ok: set message/success, reset form, refetch,
then show and schedule a 5000 ms hide.  Not ok: `detail || fallback`
(`jsOrString`), error class, show, 5000 ms hide.  Catch: fixed text,
error class, show, and no timer is scheduled at all. -/
def signupSubmit (m : MsgDiv) (resp : FetchOutcome) : MsgDiv × Effects :=
  match resp with
  | FetchOutcome.success ok body =>
      if ok then
        ({ text := body.message, className := "success", hidden := false },
         { requestSent := true, refetch := true, formReset := true, timer := some 5000 })
      else
        ({ text := some (jsOrString body.detail "An error occurred"),
           className := "error", hidden := false },
         { requestSent := true, refetch := false, formReset := false, timer := some 5000 })
  | FetchOutcome.failure =>
      ({ text := some "Failed to sign up. Please try again.",
         className := "error", hidden := false },
       { requestSent := true, refetch := false, formReset := false, timer := none })

/-- Lines 83-131: the unregister handler.  `confirmed` is the result of
the confirm dialog; when false the handler returns before any request.
ok: message/success, refetch, 3000 ms hide.  Not ok: `detail || fallback`
(`jsOrString`), error, 5000 ms hide.  Catch: fixed text, error, 5000 ms
hide. -/
def unregisterParticipant (confirmed : Bool) (m : MsgDiv) (resp : FetchOutcome) :
    MsgDiv × Effects :=
  if confirmed then
    match resp with
    | FetchOutcome.success ok body =>
        if ok then
          ({ text := body.message, className := "success", hidden := false },
           { requestSent := true, refetch := true, formReset := false, timer := some 3000 })
        else
          ({ text := some (jsOrString body.detail "Failed to unregister participant"),
             className := "error", hidden := false },
           { requestSent := true, refetch := false, formReset := false, timer := some 5000 })
    | FetchOutcome.failure =>
        ({ text := some "Failed to unregister participant. Please try again.",
           className := "error", hidden := false },
         { requestSent := true, refetch := false, formReset := false, timer := some 5000 })
  else
    (m, { requestSent := false, refetch := false, formReset := false, timer := none })

/-- Hex digit used by percent-encoding: 0-9 then uppercase A-F. -/
def hexDigitChar (n : Nat) : Char :=
  if n < 10 then Char.ofNat (48 + n) else Char.ofNat (55 + n)

/-- UTF-8 byte sequence of one code point, as the JS `encodeURIComponent`
builtin produces before percent-encoding each byte. -/
def utf8Bytes (c : Char) : List Nat :=
  if c.toNat < 128 then [c.toNat]
  else if c.toNat < 2048 then
    [192 + c.toNat / 64, 128 + c.toNat % 64]
  else if c.toNat < 65536 then
    [224 + c.toNat / 4096, 128 + (c.toNat / 64) % 64, 128 + c.toNat % 64]
  else
    [240 + c.toNat / 262144, 128 + (c.toNat / 4096) % 64,
     128 + (c.toNat / 64) % 64, 128 + c.toNat % 64]

/-- One byte rendered as a percent escape, e.g. 32 becomes "%20". -/
def percentEncodeByteChars (b : Nat) : List Char :=
  ['%', hexDigitChar (b / 16), hexDigitChar (b % 16)]

/-- The characters `encodeURIComponent` leaves unescaped: ASCII
alphanumerics and the marks - _ . ! ~ * apostrophe ( ). -/
def uriUnescaped (c : Char) : Bool :=
  c.isAlpha || c.isDigit || c == '-' || c == '_' || c == '.' || c == '!'
    || c == '~' || c == '*' || c == Char.ofNat 39 || c == '(' || c == ')'

/-- Encoding of a single character: kept verbatim when unescaped,
otherwise every UTF-8 byte percent-escaped. -/
def encodeCharChars (c : Char) : List Char :=
  if uriUnescaped c then [c]
  else (utf8Bytes c).flatMap percentEncodeByteChars

/-- Model of the JS builtin `encodeURIComponent`, applied by the code to
every activity-name and email placed into a request URL. -/
def encodeURIComponent (s : String) : String :=
  String.mk (s.data.flatMap encodeCharChars)

/-- Line 142: the signup request URL,
`/activities/(activity)/signup?email=(email)` with both values encoded. -/
def signupUrl (activity email : String) : String :=
  "/activities/" ++ encodeURIComponent activity ++ "/signup?email="
    ++ encodeURIComponent email

/-- Line 90: the unregister request URL,
`/activities/(activityName)/unregister/(email)` with both values encoded. -/
def unregisterUrl (activityName email : String) : String :=
  "/activities/" ++ encodeURIComponent activityName ++ "/unregister/"
    ++ encodeURIComponent email

/-- Lines 27-32, transcribed template literal: the `<li>` markup for one
participant.  The interpolations insert `name` and `participant` raw. -/
def participantLiHTML (name participant : String) : String :=
  "\n              <li>\n                <span class=\"participant-email\">"
    ++ participant
    ++ "</span>\n                <button class=\"delete-participant-btn\" data-activity=\""
    ++ name ++ "\" data-email=\"" ++ participant
    ++ "\" title=\"Remove participant\"></button>\n              </li>\n            "

/-- HTML escaping of one character (the five special characters become
entities), following the wording of the spec. -/
def escapeHtmlChar (c : Char) : String :=
  if c = '&' then "&amp;"
  else if c = '<' then "&lt;"
  else if c = '>' then "&gt;"
  else if c = Char.ofNat 34 then "&quot;"
  else if c = Char.ofNat 39 then "&#39;"
  else String.singleton c

/-- HTML escaping of a string, following the wording of the spec. -/
def escapeHtml (s : String) : String :=
  String.join (s.data.map escapeHtmlChar)

/-- What the spec asks the `<li>` template to produce: the same markup
with both interpolated values HTML-escaped before embedding.  This is the
spec-side definition for the refinement comparison of the escaping claim;
the source-side definition is `participantLiHTML`. -/
def participantLiHTMLEscaped (name participant : String) : String :=
  participantLiHTML (escapeHtml name) (escapeHtml participant)

/-- Characters that must not appear raw inside an encoded path segment or
query value: the URL structure delimiters, double quote and space. -/
def urlDelim (c : Char) : Bool :=
  c == '/' || c == '?' || c == '&' || c == '#' || c == '='
    || c == Char.ofNat 34 || c == ' '

/-- Show instants of a status-message trace: each pair is (time the
handler set the message, delay it passed to setTimeout). -/
def showTimes (shows : List (Nat × Nat)) : List Nat :=
  shows.map Prod.fst

/-- Hide-timer fire instants of a trace.  The code never calls
clearTimeout, so every scheduled timer stays pending and fires. -/
def fireTimes (shows : List (Nat × Nat)) : List Nat :=
  shows.map (fun p => p.1 + p.2)

/-- The latest instant of `ts` that is not after `t`, if any. -/
def lastLE (ts : List Nat) (t : Nat) : Option Nat :=
  (ts.filter (fun x => x ≤ t)).max?

/-- Whether the message div carries the "hidden" class at time `t`, for a
trace of shows: each show removes the class at its instant, each pending
timer adds it back at its fire instant, and the div starts hidden.  The
class state at `t` is decided by the latest event at or before `t`. -/
def hiddenAt (shows : List (Nat × Nat)) (t : Nat) : Bool :=
  match lastLE (showTimes shows) t, lastLE (fireTimes shows) t with
  | none, _ => true
  | some _, none => false
  | some s, some f => decide (s ≤ f)

/-- A small activity used in concrete instantiations. -/
def exActivity : Activity := ⟨"Chess for beginners", "Fridays", 2, ["a@b.com"]⟩

/-- A one-entry catalog used in concrete instantiations. -/
def exCatalog : Catalog := [("Chess Club", exActivity)]

/-- A starting DOM state: the loading text and an empty select. -/
def exState : DomState := ⟨ListRegion.html "loading", []⟩

theorem char_toNat_lt_limit (c : Char) : c.toNat < 1114112 := by
  rcases c.valid with h | ⟨_, h⟩
  · exact lt_trans h (by norm_num)
  · exact h

theorem utf8Bytes_lt (c : Char) : ∀ b ∈ utf8Bytes c, b < 256 := by
  intro b hb
  have hn := char_toNat_lt_limit c
  unfold utf8Bytes at hb
  split at hb
  · simp at hb; omega
  · split at hb
    · simp at hb; rcases hb with rfl | rfl <;> omega
    · split at hb
      · simp at hb; rcases hb with rfl | rfl | rfl <;> omega
      · simp at hb; rcases hb with rfl | rfl | rfl | rfl <;> omega

theorem hexDigitChar_not_delim : ∀ n, n < 16 → urlDelim (hexDigitChar n) = false := by
  decide

theorem uriUnescaped_not_delim (c : Char) (h : uriUnescaped c = true) :
    urlDelim c = false := by
  by_contra hne
  have hd : urlDelim c = true := by
    cases hu : urlDelim c
    · exact absurd hu hne
    · rfl
  simp only [urlDelim, Bool.or_eq_true, beq_iff_eq] at hd
  rcases hd with ((((((rfl | rfl) | rfl) | rfl) | rfl) | rfl) | rfl) <;>
    exact absurd h (by decide)

theorem encodeCharChars_safe (ch : Char) :
    ∀ c ∈ encodeCharChars ch, urlDelim c = false := by
  intro c hc
  unfold encodeCharChars at hc
  split at hc
  · next hu =>
      simp at hc
      rw [hc]
      exact uriUnescaped_not_delim ch hu
  · rw [List.mem_flatMap] at hc
    rcases hc with ⟨b, hb, hcb⟩
    have hblt : b < 256 := utf8Bytes_lt ch b hb
    simp only [percentEncodeByteChars, List.mem_cons, List.not_mem_nil, or_false] at hcb
    rcases hcb with rfl | rfl | rfl
    · decide
    · exact hexDigitChar_not_delim (b / 16) (by omega)
    · exact hexDigitChar_not_delim (b % 16) (by omega)

theorem encodeURIComponent_safe (s : String) :
    ∀ c ∈ (encodeURIComponent s).data, urlDelim c = false := by
  intro c hc
  have hc2 : c ∈ s.data.flatMap encodeCharChars := hc
  rw [List.mem_flatMap] at hc2
  rcases hc2 with ⟨ch, _, hcc⟩
  exact encodeCharChars_safe ch c hcc

/-- C1: a successful fetch-and-render pass produces exactly one card per
catalog entry, in catalog (insertion) order, and every card's
availability line is literally `max_participants - participants.length`
followed by " spots left", with no special casing at 0. -/
theorem c1_cards_and_capacity (st : DomState) (cat : Catalog)
    (name : String) (details : Activity) :
    (fetchActivities st (some cat)).1.listRegion
      = ListRegion.cards (renderCards cat) ∧
    renderCards cat = cat.map (fun p => mkCard p.1 p.2) ∧
    (renderCards cat).length = cat.length ∧
    (mkCard name details).availabilityText
      = toString (details.max_participants
          - (details.participants.length : Int)) ++ " spots left" :=
  ⟨rfl, rfl, by simp [renderCards], rfl⟩

theorem takeWhile_eq_self_of_all {p : Char → Bool} :
    ∀ l : List Char, (∀ c ∈ l, p c = true) → l.takeWhile p = l := by
  intro l h
  induction l with
  | nil => rfl
  | cons a t ih =>
    have ha : p a = true := h a (List.mem_cons_self a t)
    have ht := ih (fun c hc => h c (List.mem_cons_of_mem a hc))
    simp [List.takeWhile_cons, ha, ht]

theorem domAttrValue_inert (v : String) (h : htmlInert v = true) :
    domAttrValue v = v := by
  have hall := List.all_eq_true.mp h
  have ht : v.data.takeWhile (fun c => c != Char.ofNat 34) = v.data := by
    apply takeWhile_eq_self_of_all
    intro c hc
    have h2 := hall c hc
    simp only [Bool.and_eq_true] at h2
    exact h2.1.1.1
  unfold domAttrValue
  rw [ht]

/-- C2 counterexample: for the email a"b@x.com the data-email attribute
that survives the innerHTML round-trip is the value truncated at the
first double quote, "a", not the exact email, so the claim that each
control carries exactly the participant email fails on the program. -/
theorem c2_counterexample :
    removalControls (mkPBlock "Chess Club" ⟨"d", "s", 2, ["a\"b@x.com"]⟩)
      = [("Chess Club", "a")] ∧
    removalControls (mkPBlock "Chess Club" ⟨"d", "s", 2, ["a\"b@x.com"]⟩)
      ≠ [("Chess Club", "a\"b@x.com")] := by
  constructor
  · decide
  · decide

/-- C2 (amended): for an activity name and participant emails free of
HTML-special characters (so the innerHTML round-trip is the identity),
the DOM block is: the fixed placeholder with zero removal controls for
an empty sequence; exactly one removal control per participant, in
order, each tagged with exactly that activity's name and that email, for
a non-empty one. -/
theorem c2_participants_block (name : String) (details : Activity)
    (hn : htmlInert name = true)
    (hp : details.participants.all htmlInert = true) :
    (details.participants = [] →
      mkPBlock name details = PBlock.placeholder "No participants yet" ∧
      removalControls (mkPBlock name details) = []) ∧
    (details.participants ≠ [] →
      mkPBlock name details
        = PBlock.rows (details.participants.map (fun p => ⟨p, name, p⟩)) ∧
      removalControls (mkPBlock name details)
        = details.participants.map (fun p => (name, p))) := by
  have hrows : details.participants.map
        (fun p => (⟨p, domAttrValue name, domAttrValue p⟩ : Row))
      = details.participants.map (fun p => (⟨p, name, p⟩ : Row)) := by
    apply List.map_congr_left
    intro p hpm
    rw [domAttrValue_inert name hn,
        domAttrValue_inert p (List.all_eq_true.mp hp p hpm)]
  constructor
  · intro h
    constructor <;> simp [mkPBlock, removalControls, h]
  · intro h
    have hlen : 0 < details.participants.length := List.length_pos.mpr h
    refine ⟨?_, ?_⟩
    · simp only [mkPBlock, if_pos hlen, hrows]
    · simp only [mkPBlock, if_pos hlen, removalControls, hrows,
        List.map_map]
      rfl

theorem c2_witness :
    htmlInert "Chess Club" = true ∧
    (["a@b.com"] : List String).all htmlInert = true ∧
    removalControls (mkPBlock "Chess Club" ⟨"d", "s", 2, ["a@b.com"]⟩)
      = [("Chess Club", "a@b.com")] :=
  ⟨by decide, by decide,
   ((c2_participants_block "Chess Club" ⟨"d", "s", 2, ["a@b.com"]⟩
       (by decide) (by decide)).2 (by decide)).2⟩

/-- C3 counterexample: for a non-2xx body whose detail is present but
empty, the JS || fallback fires, so the shown text is the generic
fallback and not the server-provided detail; the detail-when-present
clause of the claim fails at this input. -/
theorem c3_counterexample :
    (signupSubmit ⟨none, "", true⟩
        (FetchOutcome.success false ⟨none, some ""⟩)).1.text
      = some "An error occurred" ∧
    (signupSubmit ⟨none, "", true⟩
        (FetchOutcome.success false ⟨none, some ""⟩)).1.text
      ≠ some "" := by
  constructor
  · rfl
  · decide

/-- C3 (amended): signup submit on a 2xx response sets the status text
to the server message, class success, resets the form and triggers one
fresh catalog read; on a non-2xx response it shows the detail when
present and non-empty, else the generic fallback (the || idiom also
falls back on an empty-string detail), class error, leaves the form
alone and issues no further read. -/
theorem c3_signup_paths (m : MsgDiv) (body : RespBody) :
    signupSubmit m (FetchOutcome.success true body)
      = ({ text := body.message, className := "success", hidden := false },
         { requestSent := true, refetch := true, formReset := true,
           timer := some 5000 }) ∧
    signupSubmit m (FetchOutcome.success false body)
      = ({ text := some (jsOrString body.detail "An error occurred"),
           className := "error", hidden := false },
         { requestSent := true, refetch := false, formReset := false,
           timer := some 5000 }) :=
  ⟨rfl, rfl⟩

/-- C4: when the read request or the body parse throws, the whole list
region becomes the single fixed failure paragraph (no partial cards), the
select options are exactly the ones from before the pass, and the pass
issues exactly its one original request, so no retry. -/
theorem c4_fetch_failure (st : DomState) :
    (fetchActivities st none).1.listRegion
      = ListRegion.html
          "<p>Failed to load activities. Please try again later.</p>" ∧
    (fetchActivities st none).1.selectOptions = st.selectOptions ∧
    (fetchActivities st none).2 = 1 :=
  ⟨rfl, rfl, rfl⟩

/-- C9: on a 2xx response both handlers assign the message field of the
body to the status text as is, with no fallback even when the field is
absent; only the non-2xx branch applies a fallback to the detail field
(the JS || idiom, which also falls back on an empty-string detail). -/
theorem c9_success_no_fallback (m : MsgDiv) (body : RespBody) :
    (signupSubmit m (FetchOutcome.success true body)).1.text = body.message ∧
    (unregisterParticipant true m (FetchOutcome.success true body)).1.text
      = body.message ∧
    (signupSubmit m (FetchOutcome.success true ⟨none, some "d"⟩)).1.text
      = none ∧
    (unregisterParticipant true m
        (FetchOutcome.success true ⟨none, some "d"⟩)).1.text = none ∧
    (signupSubmit m (FetchOutcome.success false body)).1.text
      = some (jsOrString body.detail "An error occurred") ∧
    (unregisterParticipant true m (FetchOutcome.success false body)).1.text
      = some (jsOrString body.detail "Failed to unregister participant") :=
  ⟨rfl, rfl, rfl, rfl, rfl, rfl⟩

/-- C10: when participants exceed max_participants the availability value
is the exact negative difference, not clamped to zero, and the card is
still rendered (the rendering function is total). -/
theorem c10_negative_capacity (name : String) (details : Activity)
    (h : details.max_participants < (details.participants.length : Int)) :
    spotsLeft details < 0 ∧
    spotsLeft details
      = details.max_participants - (details.participants.length : Int) ∧
    (mkCard name details).availabilityText
      = toString (spotsLeft details) ++ " spots left" := by
  refine ⟨?_, rfl, rfl⟩
  unfold spotsLeft
  omega

theorem c10_witness :
    ((⟨"d", "s", 2, ["a", "b", "c"]⟩ : Activity).max_participants
      < (((⟨"d", "s", 2, ["a", "b", "c"]⟩ : Activity).participants.length : Nat) : Int)) ∧
    spotsLeft ⟨"d", "s", 2, ["a", "b", "c"]⟩ < 0 :=
  ⟨by decide,
   (c10_negative_capacity "Chess Club" ⟨"d", "s", 2, ["a", "b", "c"]⟩
     (by decide)).1⟩

/-- C5 counterexample: the claim says the values embedded into the
removal control markup are escaped for safe HTML embedding, but the
template interpolates them raw; for an email containing a double quote
the produced markup differs from the escaped markup (the raw quote ends
the data-email attribute early). -/
theorem c5_counterexample :
    participantLiHTML "Chess Club" "a\"b@x.com"
      ≠ participantLiHTMLEscaped "Chess Club" "a\"b@x.com" := by
  decide

/-- C5 (amended): both request URLs percent-encode the activity name and
the email with encodeURIComponent, whose output never contains a raw URL
delimiter, quote or space; the HTML data attributes, however, embed the
raw values with no escaping. -/
theorem c5_url_encoding_no_html_escaping :
    (∀ s : String, ∀ c ∈ (encodeURIComponent s).data, urlDelim c = false) ∧
    (∀ activity email : String,
      signupUrl activity email
        = "/activities/" ++ encodeURIComponent activity ++ "/signup?email="
            ++ encodeURIComponent email ∧
      unregisterUrl activity email
        = "/activities/" ++ encodeURIComponent activity ++ "/unregister/"
            ++ encodeURIComponent email) ∧
    participantLiHTML "Chess Club" "a\"b@x.com"
      ≠ participantLiHTMLEscaped "Chess Club" "a\"b@x.com" :=
  ⟨encodeURIComponent_safe, fun _ _ => ⟨rfl, rfl⟩, by decide⟩

theorem c5_witness :
    '%' ∈ (encodeURIComponent "a b@x.com").data ∧ urlDelim '%' = false :=
  ⟨by decide,
   c5_url_encoding_no_html_escaping.1 "a b@x.com" '%' (by decide)⟩

/-- C6 counterexample: rendering the same one-entry catalog twice leaves
the select with two copies of the option, so the selection control is not
fully replaced and an entry of the previous render survives, contrary to
the claim that its contents are exactly those of the catalog just
fetched. -/
theorem c6_counterexample :
    (fetchActivities
        (fetchActivities exState (some exCatalog)).1
        (some exCatalog)).1.selectOptions
      = ["Chess Club", "Chess Club"] ∧
    (fetchActivities
        (fetchActivities exState (some exCatalog)).1
        (some exCatalog)).1.selectOptions
      ≠ exCatalog.map (fun p => p.1) := by
  constructor
  · rfl
  · decide

/-- C6 (amended): a successful pass fully replaces the activity list,
whose contents depend only on the catalog just fetched, but only appends
to the selection control: the previous options all survive as a prefix
and the new options are added after them. -/
theorem c6_list_replaced_select_appended (st st2 : DomState) (cat : Catalog) :
    (fetchActivities st (some cat)).1.listRegion
      = (fetchActivities st2 (some cat)).1.listRegion ∧
    (fetchActivities st (some cat)).1.listRegion
      = ListRegion.cards (renderCards cat) ∧
    (fetchActivities st (some cat)).1.selectOptions
      = st.selectOptions ++ cat.map (fun p => p.1) :=
  ⟨rfl, rfl, rfl⟩

/-- C7 counterexample: on a signup transport failure the catch block sets
the error message but schedules no hide timer at all, contrary to the
claim that this path auto-dismisses after 5000 ms. -/
theorem c7_counterexample :
    (signupSubmit ⟨none, "", true⟩ FetchOutcome.failure).2.timer = none ∧
    (signupSubmit ⟨none, "", true⟩ FetchOutcome.failure).2.timer
      ≠ some 5000 := by
  constructor
  · rfl
  · decide

/-- C7 (amended): signup schedules a 5000 ms dismissal on the success and
application-error paths but none on transport failure; unregister
schedules 3000 ms on success and 5000 ms on application error and on
transport failure. -/
theorem c7_dismissal_delays (m : MsgDiv) (body : RespBody) :
    (signupSubmit m (FetchOutcome.success true body)).2.timer = some 5000 ∧
    (signupSubmit m (FetchOutcome.success false body)).2.timer = some 5000 ∧
    (signupSubmit m FetchOutcome.failure).2.timer = none ∧
    (unregisterParticipant true m (FetchOutcome.success true body)).2.timer
      = some 3000 ∧
    (unregisterParticipant true m (FetchOutcome.success false body)).2.timer
      = some 5000 ∧
    (unregisterParticipant true m FetchOutcome.failure).2.timer
      = some 5000 :=
  ⟨rfl, rfl, rfl, rfl, rfl, rfl⟩

/-- C8 counterexample: the handlers never cancel a pending hide timer, so
in the trace where an unregister success (3000 ms timer) is shown at time
0 and a signup application error (5000 ms timer) at time 1000, the second
message is hidden at time 4000 even though its own deadline is 6000: an
earlier message's timer hides a later message early, contrary to the
claim. -/
theorem c8_counterexample :
    (unregisterParticipant true ⟨none, "", true⟩
        (FetchOutcome.success true ⟨some "Removed", none⟩)).2.timer
      = some 3000 ∧
    (signupSubmit ⟨none, "", true⟩
        (FetchOutcome.success false ⟨none, some "Already signed up"⟩)).2.timer
      = some 5000 ∧
    lastLE (showTimes [(0, 3000), (1000, 5000)]) 4000 = some 1000 ∧
    (4000 : Nat) < 1000 + 5000 ∧
    hiddenAt [(0, 3000), (1000, 5000)] 4000 = true := by
  refine ⟨rfl, rfl, by decide, by decide, by decide⟩

/-- C8 (amended): a new message does replace the prior one, since each
handler writes the whole message slot without reading it, but pending
hide timers are never cancelled: in the stacked-timer trace the display
is visible up to 2999 and hidden from 3000 on, well before the 6000 ms
deadline of the message shown at 1000. -/
theorem c8_replace_but_timers_stack (m m2 : MsgDiv) (resp : FetchOutcome) :
    signupSubmit m resp = signupSubmit m2 resp ∧
    unregisterParticipant true m resp = unregisterParticipant true m2 resp ∧
    hiddenAt [(0, 3000), (1000, 5000)] 2999 = false ∧
    hiddenAt [(0, 3000), (1000, 5000)] 3000 = true ∧
    hiddenAt [(0, 3000), (1000, 5000)] 5999 = true :=
  ⟨rfl, rfl, by decide, by decide, by decide⟩
